import Mathlib

/-!
# CloudWatch data source: alert polling, orchestration and session construction

A shallow embedding of `pkg/tsdb/cloudwatch/cloudwatch.go` and
`pkg/tsdb/cloudwatch/credentials.go`.

Conventions of the embedding:

* a Go call that returns `(value, error)` and may also panic is an `Outcome`;
* the remote services are scripted: the answer to the `n`-th call of an
  operation is a function of `n` and of the request, and every function
  threads the log of the calls made so far (`Calls`, `Trace`);
* pointer fields of SDK structures that the code dereferences are `Option`s,
  and dereferencing `none` is a panic.
-/

namespace Cloudwatch

/-! ## Values shared by all operations -/

/-- A Go `error`, identified by its message. -/
abbrev Error := String

/-- What a Go call does: it panics, or it returns the pair `(val, err)`,
either of which may be nil. -/
inductive Outcome (α : Type) where
  | panic : Outcome α
  | ret (val : Option α) (err : Option Error) : Outcome α
deriving DecidableEq

/-! ## JSON parameters -/

/-- Scalar JSON value. -/
inductive JsonAtom where
  | null
  | bool (b : Bool)
  | num (n : Int)
  | str (s : String)
deriving DecidableEq

/-- JSON value stored under a key of a parameter object. -/
inductive JsonValue where
  | atom (a : JsonAtom)
  | arr (xs : List JsonAtom)
deriving DecidableEq

/-- Modelled from the spec: the `simplejson` package is not among the sources.
A parameter object ("free-form query parameters") is a finite map from keys to
JSON values, kept as an association list in which the first binding of a key
is the live one. -/
abbrev Json := List (String × JsonValue)

/-- Modelled from the spec: `simplejson` is not among the sources.
`j.Get(key)`: the value under `key`, `none` when the key is missing. -/
def Json.Get (j : Json) (key : String) : Option JsonValue :=
  j.lookup key

/-- Modelled from the spec: `simplejson` is not among the sources.
`j.Set(key, val)`: bind `key` to `val`, replacing an earlier binding. -/
def Json.Set (j : Json) (key : String) (val : JsonValue) : Json :=
  (key, val) :: j.filter (fun kv => kv.1 ≠ key)

/-- Modelled from the spec: `simplejson` is not among the sources.
`v.MustString(dflt)`: the string held by `v`, and `dflt` when `v` is missing
or is not a string. `MustString()` without argument is `MustString("")`. -/
def MustString (v : Option JsonValue) (dflt : String) : String :=
  match v with
  | some (.atom (.str s)) => s
  | _ => dflt

/-- Elements of a JSON array read as strings: null reads as the empty string, a
string as itself, and any other element makes the whole conversion fail. -/
def stringArray : List JsonAtom → Option (List String)
  | [] => some []
  | .null :: xs => (stringArray xs).map (fun ys => "" :: ys)
  | .str s :: xs => (stringArray xs).map (fun ys => s :: ys)
  | _ :: _ => none

/-- Modelled from the spec: `simplejson` is not among the sources.
`v.MustStringArray()`: the strings of an array ("optional list of
grouping-field names"), and the empty list when `v` is missing, is not an
array, or holds an element that is neither a string nor null. -/
def MustStringArray (v : Option JsonValue) : List String :=
  match v with
  | some (.arr xs) => (stringArray xs).getD []
  | _ => []

/-! ## Data model -/

/-- Go type `tsdb.TimeRange`: two string-encoded instants. -/
structure TimeRange where
  From : String
  To : String
deriving DecidableEq

/-- Go type `tsdb.Query`: one query of a request. -/
structure Query where
  RefId : String
  Model : Json
deriving DecidableEq

/-- Go type `tsdb.TsdbQuery`: the query context handed to the executor. `Headers` is the
Go map of request headers, as an association list. -/
structure TsdbQuery where
  TimeRange : TimeRange
  Headers : List (String × String)
  Queries : List Query
deriving DecidableEq

/-- Go type `models.DataSource`, restricted to what the executor reads: the JSON
settings, the `Database` column and the decrypted secure settings (what
`DecryptedValues()` returns). -/
structure DataSource where
  JsonData : Json
  Database : String
  DecryptedValues : List (String × String)
deriving DecidableEq

/-- Structure `DatasourceInfo` of `cloudwatch.go`. -/
structure DatasourceInfo where
  Profile : String
  Region : String
  AuthType : String
  AssumeRoleArn : String
  ExternalID : String
  Namespace : String
  AccessKey : String
  SecretKey : String
deriving DecidableEq

/-- Go type `cloudwatchlogs.ResultField`. -/
structure ResultField where
  Field : Option String
  Value : Option String
deriving DecidableEq

/-- Go type `cloudwatchlogs.QueryStatistics`. The SDK holds three `*float64`; the values
are only carried along, so they are kept as optional integers. -/
structure QueryStatistics where
  BytesScanned : Option Int
  RecordsMatched : Option Int
  RecordsScanned : Option Int
deriving DecidableEq

/-- Go type `cloudwatchlogs.GetQueryResultsOutput`: the payload of one fetch. -/
structure GetQueryResultsOutput where
  Results : List (List ResultField)
  Statistics : Option QueryStatistics
  Status : Option String
deriving DecidableEq

/-- Go type `cloudwatchlogs.StartQueryOutput`. -/
structure StartQueryOutput where
  QueryId : Option String
deriving DecidableEq

/-- Modelled from the spec: the request of
`StartQuery(region, queryExpression, startTime, endTime)`. -/
structure StartQueryInput where
  Region : String
  QueryString : String
  StartTime : Int
  EndTime : Int
deriving DecidableEq

/-- Modelled from the spec: the request of `GetQueryResults(queryId)`. -/
structure GetQueryResultsInput where
  QueryId : String
deriving DecidableEq

/-- What a remote call answers: a transport error or a value. -/
inductive Reply (α : Type) where
  | fail (err : Error) : Reply α
  | ok (val : α) : Reply α
deriving DecidableEq

/-- The remote query service (`cloudwatchlogsiface.CloudWatchLogsAPI`), scripted:
`StartQuery n req` is the answer to the start call that follows `n` earlier
start calls, and likewise for `GetQueryResults`. -/
structure LogsClient where
  StartQuery : Nat → StartQueryInput → Reply StartQueryOutput
  GetQueryResults : Nat → GetQueryResultsInput → Reply GetQueryResultsOutput

/-- Go type `data.Field`: a named column. -/
structure Field where
  Name : String
  Values : List (Option String)
deriving DecidableEq

/-- Go type `data.Frame`: a named table. -/
structure Frame where
  Name : String
  RefID : String
  Fields : List Field
deriving DecidableEq

/-- Log of the calls a run has made, oldest first: the start and fetch calls
to the remote query service, and the calls to the result grouper. -/
structure Calls where
  starts : List StartQueryInput
  fetches : List GetQueryResultsInput
  groups : List (Frame × List String)
deriving DecidableEq

/-- Go type `tsdb.QueryResult`. -/
structure QueryResult where
  RefId : String
  Dataframes : List Frame
deriving DecidableEq

/-- Go type `tsdb.Response`: the Go map `Results`, as an association list. -/
structure Response where
  Results : List (String × QueryResult)
deriving DecidableEq

/-! ## The poller (`cloudwatch.go`) -/

/-- Function `isTerminated` of `cloudwatch.go`. -/
def isTerminated (queryStatus : String) : Bool :=
  queryStatus == "Complete" || queryStatus == "Cancelled" || queryStatus == "Failed" ||
    queryStatus == "Timeout"

/-- The constant `maxAttempts` of `alertQuery`. -/
def maxAttempts : Nat := 8

/-- The error `alertQuery` builds when the attempt budget is used up. -/
def errMaxAttempts : Error := "fetching of query results exceeded max number of attempts"

/-- Modelled from the spec: `executeStartQuery` is not among the sources.
"Fails immediately with InvalidTimeRange if start ≥ end (checked before
submission, not delegated to the remote service)"; otherwise it calls the
remote start operation once, with the query expression and the time range.
`parseTime` reads a string-encoded instant. The message of the time-range error
is the one `TestQuery_StartQuery` expects. -/
def executeStartQuery (parseTime : String → Reply Int) (logsClient : LogsClient)
    (parameters : Json) (timeRange : TimeRange) (c : Calls) :
    Reply StartQueryOutput × Calls :=
  match parseTime timeRange.From with
  | .fail err => (.fail err, c)
  | .ok startTime =>
    match parseTime timeRange.To with
    | .fail err => (.fail err, c)
    | .ok endTime =>
      if startTime < endTime then
        let input : StartQueryInput :=
          { Region := MustString (parameters.Get "region") ""
            QueryString := MustString (parameters.Get "queryString") ""
            StartTime := startTime
            EndTime := endTime }
        (logsClient.StartQuery c.starts.length input, { c with starts := c.starts ++ [input] })
      else
        (.fail "invalid time range: start time must be before end time", c)

/-- Modelled from the spec: `executeGetQueryResults` is not among the sources.
It calls the remote result-fetch operation once, with the query handle found
under `"queryId"` of its parameters. -/
def executeGetQueryResults (logsClient : LogsClient) (parameters : Json) (c : Calls) :
    Reply GetQueryResultsOutput × Calls :=
  let input : GetQueryResultsInput := { QueryId := MustString (parameters.Get "queryId") "" }
  (logsClient.GetQueryResults c.fetches.length input, { c with fetches := c.fetches ++ [input] })

/-- The loop `for range ticker.C` of `alertQuery`. `ticks` is the number of ticks
the channel still delivers: when it delivers none the loop is left and the
function reaches its final `return nil, nil`. A `time.Ticker` never closes its
channel, so real runs are those with `ticks` as large as needed. -/
def pollLoop (logsClient : LogsClient) (requestParams : Json) :
    Nat → Nat → Calls → Outcome GetQueryResultsOutput × Calls
  | 0, _, c => (.ret none none, c)
  | ticks + 1, attemptCount, c =>
    match executeGetQueryResults logsClient requestParams c with
    | (.fail err, c1) => (.ret none (some err), c1)
    | (.ok res, c1) =>
      match res.Status with
      | none => (.panic, c1)
      | some status =>
        if isTerminated status then
          (.ret (some res) none, c1)
        else if attemptCount ≥ maxAttempts then
          (.ret (some res) (some errMaxAttempts), c1)
        else
          pollLoop logsClient requestParams ticks (attemptCount + 1) c1

/-- The parameters `alertQuery` builds for its fetch calls. -/
def requestParams (queryParams : Json) (queryId : String) : Json :=
  [("region", .atom (.str (MustString (queryParams.Get "region") ""))),
   ("queryId", .atom (.str queryId))]

/-- Method `CloudWatchExecutor.alertQuery` of `cloudwatch.go`. -/
def alertQuery (parseTime : String → Reply Int) (logsClient : LogsClient)
    (queryContext : TsdbQuery) (ticks : Nat) (c : Calls) :
    Outcome GetQueryResultsOutput × Calls :=
  match queryContext.Queries with
  | [] => (.panic, c)
  | q :: _ =>
    let queryParams := q.Model
    match executeStartQuery parseTime logsClient queryParams queryContext.TimeRange c with
    | (.fail err, c1) => (.ret none (some err), c1)
    | (.ok startQueryOutput, c1) =>
      match startQueryOutput.QueryId with
      | none => (.panic, c1)
      | some queryId =>
        pollLoop logsClient (requestParams queryParams queryId) ticks 1 c1

/-! ## Data source settings (`credentials.go`) -/

/-- Lookup in a Go `map[string]string`: a missing key reads as the empty string. -/
def mapGet (m : List (String × String)) (key : String) : String :=
  (m.lookup key).getD ""

/-- Function `retrieveDsInfo` of `credentials.go`. `Namespace` is left at its zero value. -/
def retrieveDsInfo (datasource : DataSource) (region : String) : DatasourceInfo :=
  let defaultRegion := MustString (datasource.JsonData.Get "defaultRegion") ""
  let region := if region = "default" then defaultRegion else region
  let authType := MustString (datasource.JsonData.Get "authType") ""
  let assumeRoleArn := MustString (datasource.JsonData.Get "assumeRoleArn") ""
  let externalID := MustString (datasource.JsonData.Get "externalId") ""
  let decrypted := datasource.DecryptedValues
  let accessKey := mapGet decrypted "accessKey"
  let secretKey := mapGet decrypted "secretKey"
  { Region := region
    Profile := datasource.Database
    AuthType := authType
    AssumeRoleArn := assumeRoleArn
    ExternalID := externalID
    Namespace := ""
    AccessKey := accessKey
    SecretKey := secretKey }

/-! ## The orchestrator (`cloudwatch.go`) -/

/-- The functions of the package the orchestrator calls and that are not among
the sources, taken as parameters: the time parser behind `executeStartQuery`,
the client cache (`e.clients.logsClient`), the result transformer, the result
grouper, and the four synchronous query paths `Query` delegates to. -/
structure Collaborators where
  parseTime : String → Reply Int
  logsClient : DatasourceInfo → Reply LogsClient
  logsResultsToDataframes : Option GetQueryResultsOutput → Reply Frame
  groupResults : Frame → List String → Reply (List Frame)
  executeMetricFindQuery : DataSource → TsdbQuery → Outcome Response
  executeAnnotationQuery : DataSource → TsdbQuery → Outcome Response
  executeLogActions : DataSource → TsdbQuery → Outcome Response
  executeTimeSeriesQuery : DataSource → TsdbQuery → Outcome Response

/-- The first statements of `executeLogAlertQuery`: the parameters after
`"subtype"` and `"queryString"` are set. -/
def alertParams (model : Json) : Json :=
  let queryParams := model.Set "subtype" (.atom (.str "StartQuery"))
  queryParams.Set "queryString" (.atom (.str (MustString (queryParams.Get "expression") "")))

/-- The region `executeLogAlertQuery` resolves the client for. -/
def alertRegion (datasource : DataSource) (queryParams : Json) : String :=
  let region := MustString (queryParams.Get "region") "default"
  if region = "default" then MustString (datasource.JsonData.Get "defaultRegion") "" else region

/-- The parameters of `executeLogAlertQuery` after the region is resolved: the
key `"region"` is overwritten only when the sentinel was found. -/
def regionParams (datasource : DataSource) (queryParams : Json) : Json :=
  if MustString (queryParams.Get "region") "default" = "default" then
    queryParams.Set "region" (.atom (.str (alertRegion datasource queryParams)))
  else queryParams

/-- Method `CloudWatchExecutor.executeLogAlertQuery` of `cloudwatch.go`. `datasource` is
`e.DataSource`. The query parameters are mutated in place by the source; here
the updated parameters are passed on in the query context given to `alertQuery`. -/
def executeLogAlertQuery (E : Collaborators) (datasource : DataSource)
    (queryContext : TsdbQuery) (ticks : Nat) (c : Calls) : Outcome Response × Calls :=
  match queryContext.Queries with
  | [] => (.panic, c)
  | q :: rest =>
    let queryParams := alertParams q.Model
    let region := alertRegion datasource queryParams
    let queryParams := regionParams datasource queryParams
    match E.logsClient (retrieveDsInfo datasource region) with
    | .fail err => (.ret none (some err), c)
    | .ok logsClient =>
      match executeStartQuery E.parseTime logsClient queryParams queryContext.TimeRange c with
      | (.fail err, c1) => (.ret none (some err), c1)
      | (.ok result, c1) =>
        match result.QueryId with
        | none => (.panic, c1)
        | some queryId =>
          let queryParams := queryParams.Set "queryId" (.atom (.str queryId))
          let queryContext1 : TsdbQuery :=
            { queryContext with Queries := { q with Model := queryParams } :: rest }
          match alertQuery E.parseTime logsClient queryContext1 ticks c1 with
          | (.panic, c2) => (.panic, c2)
          | (.ret _ (some err), c2) => (.ret none (some err), c2)
          | (.ret getQueryResultsOutput none, c2) =>
            match E.logsResultsToDataframes getQueryResultsOutput with
            | .fail err => (.ret none (some err), c2)
            | .ok dataframe =>
              let statsGroups := MustStringArray (queryParams.Get "statsGroups")
              if statsGroups.length > 0 ∧ dataframe.Fields.length > 0 then
                let c3 := { c2 with groups := c2.groups ++ [(dataframe, statsGroups)] }
                match E.groupResults dataframe statsGroups with
                | .fail err => (.ret none (some err), c3)
                | .ok groupedFrames =>
                  (.ret (some { Results := [("A", { RefId := "A", Dataframes := groupedFrames })] })
                    none, c3)
              else
                (.ret (some { Results := [("A", { RefId := "A", Dataframes := [dataframe] })] })
                  none, c2)

/-- Method `CloudWatchExecutor.Query` of `cloudwatch.go`. The `switch` on the query type
is the chain of comparisons below; its `"timeSeriesQuery"` case falls through
to the default case. -/
def CloudWatchExecutor.Query (E : Collaborators) (dsInfo : DataSource) (queryContext : TsdbQuery)
    (ticks : Nat) (c : Calls) : Outcome Response × Calls :=
  match queryContext.Queries with
  | [] => (.panic, c)
  | q :: _ =>
    let queryParams := q.Model
    let fromAlert := (queryContext.Headers.lookup "FromAlert").isSome
    let isLogAlertQuery := fromAlert && MustString (queryParams.Get "queryMode") "" == "Logs"
    if isLogAlertQuery then
      executeLogAlertQuery E dsInfo queryContext ticks c
    else
      let queryType := MustString (queryParams.Get "type") ""
      if queryType = "metricFindQuery" then
        (E.executeMetricFindQuery dsInfo queryContext, c)
      else if queryType = "annotationQuery" then
        (E.executeAnnotationQuery dsInfo queryContext, c)
      else if queryType = "logAction" then
        (E.executeLogActions dsInfo queryContext, c)
      else if queryType = "timeSeriesQuery" then
        (E.executeTimeSeriesQuery dsInfo queryContext, c)
      else
        (E.executeTimeSeriesQuery dsInfo queryContext, c)

/-! ## Session construction (`credentials.go`) -/

/-- Go type `session.Session`, an opaque handle. -/
structure Session where
  id : Nat
deriving DecidableEq

/-- Go type `stscreds.AssumeRoleProvider`, restricted to the role and the external id. -/
structure AssumeRoleProvider where
  RoleARN : String
  ExternalID : Option String
deriving DecidableEq

/-- Go type `credentials.Credentials`: shared credentials of a profile
(`NewSharedCredentials`), a static key pair (`NewStaticCredentials`), or
role credentials obtained through a session and a role provider. -/
inductive Credentials where
  | shared (filename profile : String)
  | static (id secret token : String)
  | assumeRole (sess : Session) (provider : AssumeRoleProvider)
deriving DecidableEq

/-- Go type `aws.Config`, restricted to the two fields `newAWSSession` sets. -/
structure Config where
  Region : Option String
  Credentials : Option Credentials
deriving DecidableEq

/-- The stubbable factories of `credentials.go`, scripted: `newSession n cfgs` is
what the session factory returns on the call that follows `n` earlier calls. -/
structure Factories where
  newSession : Nat → List Config → Reply Session
  newSTSCredentials : Session → String → (AssumeRoleProvider → AssumeRoleProvider) → Credentials

/-- One call of the STS credentials factory: session, role and option. -/
structure STSCall where
  sess : Session
  roleARN : String
  option : AssumeRoleProvider → AssumeRoleProvider

/-- Log of the factory calls made so far, oldest first. -/
structure Trace where
  sessions : List (List Config)
  sts : List STSCall

/-- The option closure `newAWSSession` passes to the STS credentials factory. -/
def assumeRoleOption (dsInfo : DatasourceInfo) (p : AssumeRoleProvider) : AssumeRoleProvider :=
  if dsInfo.ExternalID ≠ "" then { p with ExternalID := some dsInfo.ExternalID } else p

/-- The message of the error `newAWSSession` returns for an unknown auth type.
`quote` is the `%q` verb of `fmt`. -/
def errAuthType (quote : String → String) (authType : String) : Error :=
  quote authType ++ " is not a valid authentication type - expected \"credentials\", \"keys\" or \"sdk\""

/-- The `switch` on the auth type in `newAWSSession`: the configurations the
first session is built from, and `none` in the default case. -/
def authConfigs (dsInfo : DatasourceInfo) : Option (List Config) :=
  let regionCfg : Config := { Region := some dsInfo.Region, Credentials := none }
  let cfgs := [regionCfg]
  if dsInfo.AuthType = "credentials" then
    some (cfgs ++ [{ Region := none, Credentials := some (.shared "" dsInfo.Profile) }])
  else if dsInfo.AuthType = "keys" then
    some (cfgs ++
      [{ Region := none, Credentials := some (.static dsInfo.AccessKey dsInfo.SecretKey "") }])
  else if dsInfo.AuthType = "sdk" then
    some cfgs
  else
    none

/-- Function `newAWSSession` of `credentials.go`. The debug log lines are left out. -/
def newAWSSession (F : Factories) (quote : String → String) (dsInfo : DatasourceInfo)
    (t : Trace) : Reply Session × Trace :=
  let regionCfg : Config := { Region := some dsInfo.Region, Credentials := none }
  match authConfigs dsInfo with
  | none => (.fail (errAuthType quote dsInfo.AuthType), t)
  | some cfgs =>
    let t1 : Trace := { t with sessions := t.sessions ++ [cfgs] }
    match F.newSession t.sessions.length cfgs with
    | .fail err => (.fail err, t1)
    | .ok sess =>
      if dsInfo.AssumeRoleArn ≠ "" then
        let option := assumeRoleOption dsInfo
        let creds := F.newSTSCredentials sess dsInfo.AssumeRoleArn option
        let t2 : Trace :=
          { t1 with
            sts := t1.sts ++
              [{ sess := sess, roleARN := dsInfo.AssumeRoleArn, option := option }] }
        let cfgs2 : List Config := [regionCfg, { Region := none, Credentials := some creds }]
        let t3 : Trace := { t2 with sessions := t2.sessions ++ [cfgs2] }
        match F.newSession t2.sessions.length cfgs2 with
        | .fail err => (.fail err, t3)
        | .ok sess2 => (.ok sess2, t3)
      else
        (.ok sess, t1)

/-! ## Vocabulary of the statements -/

/-- The request every fetch call of a poll with parameters `requestParams` sends. -/
def fetchInput (requestParams : Json) : GetQueryResultsInput :=
  { QueryId := MustString (requestParams.Get "queryId") "" }

/-- The log `c` after `n` more fetch calls with request `input`. -/
def addFetches (c : Calls) (input : GetQueryResultsInput) (n : Nat) : Calls :=
  { c with fetches := c.fetches ++ List.replicate n input }

/-- The reply of the remote service to attempt `k` (counted from 1) of a poll
that starts when the log is `c`. -/
def attemptReply (logsClient : LogsClient) (requestParams : Json) (c : Calls) (k : Nat) :
    Reply GetQueryResultsOutput :=
  logsClient.GetQueryResults (c.fetches.length + (k - 1)) (fetchInput requestParams)

/-- The reply is a payload whose status is present and not terminal. -/
def Reply.running : Reply GetQueryResultsOutput → Bool
  | .ok res =>
    match res.Status with
    | some status => !isTerminated status
    | none => false
  | .fail _ => false

/-- The reply is a payload whose status is one of the four terminal values. -/
def Reply.terminal : Reply GetQueryResultsOutput → Bool
  | .ok res =>
    match res.Status with
    | some status => isTerminated status
    | none => false
  | .fail _ => false

/-- The parameters of the first query when `executeLogAlertQuery` calls
`alertQuery`: prepared, and with the handle of its own start call under
`"queryId"`. -/
def alertModel (datasource : DataSource) (model : Json) (queryId : String) : Json :=
  (regionParams datasource (alertParams model)).Set "queryId" (.atom (.str queryId))

/-- The query context `executeLogAlertQuery` hands to `alertQuery`: the first
query carries the prepared parameters, with the handle `queryId` of the start
call made by `executeLogAlertQuery` under `"queryId"`. -/
def alertContext (datasource : DataSource) (queryContext : TsdbQuery) (q : Query)
    (rest : List Query) (queryId : String) : TsdbQuery :=
  { queryContext with
    Queries := { q with Model := alertModel datasource q.Model queryId } :: rest }

/-- The response of the alert path around the tables `frames`. -/
def alertResponse (frames : List Frame) : Response :=
  { Results := [("A", { RefId := "A", Dataframes := frames })] }

/-- The collaborators `E` with the answer of the result transformer to a nil
payload replaced by `atNil`; on every payload that is not nil the transformer
is the one of `E`. -/
def withTransformerAtNil (E : Collaborators) (atNil : Reply Frame) : Collaborators :=
  { E with
    logsResultsToDataframes := fun payload =>
      match payload with
      | none => atNil
      | some res => E.logsResultsToDataframes (some res) }

/-! ## Sample inputs -/

/-- A time parser that knows the two instants of `TestQuery_StartQuery`. -/
def sampleParse (s : String) : Reply Int :=
  if s = "1584700643000" then .ok 1584700643000
  else if s = "1584873443000" then .ok 1584873443000
  else .fail "cannot parse time"

/-- A payload without rows that carries the given status. -/
def samplePayload (status : String) : GetQueryResultsOutput :=
  { Results := [], Statistics := none, Status := some status }

/-- A remote service that hands out the handles `query-1`, `query-2`, ... and
answers the fetch calls from a script. -/
def sampleClient (script : Nat → Reply GetQueryResultsOutput) : LogsClient :=
  { StartQuery := fun n _ => .ok { QueryId := some (if n = 0 then "query-1" else "query-2") }
    GetQueryResults := fun n _ => script n }

/-- Two running replies, then `Complete`. -/
def scriptCompleteThird (n : Nat) : Reply GetQueryResultsOutput :=
  if n < 2 then .ok (samplePayload "Running") else .ok (samplePayload "Complete")

/-- The query never leaves `Running`. -/
def scriptNeverDone (_ : Nat) : Reply GetQueryResultsOutput :=
  .ok (samplePayload "Running")

/-- One running reply, then a transport error. -/
def scriptFailSecond (n : Nat) : Reply GetQueryResultsOutput :=
  if n = 0 then .ok (samplePayload "Running") else .fail "throttled"

/-- A log query with reference id `B`. -/
def sampleQuery : Query :=
  { RefId := "B"
    Model :=
      [("queryMode", .atom (.str "Logs")), ("expression", .atom (.str "fields @message")),
       ("region", .atom (.str "default"))] }

/-- An alert request for `sampleQuery` on a valid time range. -/
def sampleContext : TsdbQuery :=
  { TimeRange := { From := "1584700643000", To := "1584873443000" }
    Headers := [("FromAlert", "")]
    Queries := [sampleQuery] }

/-- The empty call log. -/
def noCalls : Calls := { starts := [], fetches := [], groups := [] }

/-- A data source with static keys and a default region. -/
def sampleDataSource : DataSource :=
  { JsonData :=
      [("defaultRegion", .atom (.str "us-east-1")), ("authType", .atom (.str "keys"))]
    Database := "default"
    DecryptedValues := [("accessKey", "AKIA"), ("secretKey", "secret")] }

/-- A table with two columns. -/
def sampleFrame : Frame :=
  { Name := ""
    RefID := ""
    Fields :=
      [{ Name := "host", Values := [some "a", some "b"] },
       { Name := "count", Values := [some "1", some "2"] }] }

/-- A response that only names the path that produced it. -/
def sampleReturn (path : String) : Outcome Response :=
  .ret (some { Results := [(path, { RefId := "", Dataframes := [] })] }) none

/-- Collaborators around a scripted remote service: the transformer always
yields `sampleFrame`, the grouper splits a table into two renamed copies. -/
def sampleCollaborators (script : Nat → Reply GetQueryResultsOutput) : Collaborators :=
  { parseTime := sampleParse
    logsClient := fun _ => .ok (sampleClient script)
    logsResultsToDataframes := fun _ => .ok sampleFrame
    groupResults := fun frame _ => .ok [{ frame with Name := "a" }, { frame with Name := "b" }]
    executeMetricFindQuery := fun _ _ => sampleReturn "metricFind"
    executeAnnotationQuery := fun _ _ => sampleReturn "annotation"
    executeLogActions := fun _ _ => sampleReturn "logAction"
    executeTimeSeriesQuery := fun _ _ => sampleReturn "timeSeries" }

/-- The alert query of `sampleContext`, grouped by `host`. -/
def sampleGroupedContext : TsdbQuery :=
  { TimeRange := { From := "1584700643000", To := "1584873443000" }
    Headers := [("FromAlert", "")]
    Queries :=
      [{ RefId := "B"
         Model :=
           [("queryMode", .atom (.str "Logs")), ("expression", .atom (.str "fields @message")),
            ("region", .atom (.str "default")), ("statsGroups", .arr [.str "host"])] }] }

/-- The start request the alert path sends for the sample contexts. -/
def sampleStart : StartQueryInput :=
  { Region := "us-east-1", QueryString := "fields @message", StartTime := 1584700643000,
    EndTime := 1584873443000 }

/-- Factories in the manner of the test stubs: the session factory numbers the
sessions it builds, the STS factory applies the option to a fresh role provider. -/
def sampleFactories : Factories :=
  { newSession := fun n _ => .ok { id := n }
    newSTSCredentials := fun sess roleARN option =>
      .assumeRole sess (option { RoleARN := roleARN, ExternalID := none }) }

/-- Quoting of a string without characters to escape. -/
def sampleQuote (s : String) : String :=
  "\"" ++ s ++ "\""

/-- Settings with static keys, a role to assume and an external id. -/
def sampleRoleInfo : DatasourceInfo :=
  { Profile := "default", Region := "us-east-1", AuthType := "keys",
    AssumeRoleArn := "arn:aws:iam::123456789012:role/grafana", ExternalID := "ext-1",
    Namespace := "", AccessKey := "AKIA", SecretKey := "secret" }

/-- The settings of `sampleRoleInfo` with an auth type that does not exist. -/
def sampleBogusInfo : DatasourceInfo :=
  { sampleRoleInfo with AuthType := "bogus" }

/-- The empty factory log. -/
def noTrace : Trace := { sessions := [], sts := [] }

/-- A query context without the alert header whose first query has the given type. -/
def sampleTypedContext (queryType : String) : TsdbQuery :=
  { TimeRange := { From := "1584700643000", To := "1584873443000" }
    Headers := []
    Queries :=
      [{ RefId := "A"
         Model := [("queryMode", .atom (.str "Logs")), ("type", .atom (.str queryType))] }] }

/-! ## The poller: auxiliary facts -/

theorem isTerminated_iff (s : String) :
    isTerminated s = true ↔ s = "Complete" ∨ s = "Cancelled" ∨ s = "Failed" ∨ s = "Timeout" := by
  simp [isTerminated, or_assoc]

theorem running_iff (r : Reply GetQueryResultsOutput) :
    r.running = true ↔ ∃ res status, r = .ok res ∧ res.Status = some status ∧
      isTerminated status = false := by
  cases r with
  | fail err => simp [Reply.running]
  | ok res =>
    cases h : res.Status with
    | none => simp [Reply.running, h]
    | some status => simp [Reply.running, h]

theorem terminal_iff (r : Reply GetQueryResultsOutput) :
    r.terminal = true ↔ ∃ res status, r = .ok res ∧ res.Status = some status ∧
      isTerminated status = true := by
  cases r with
  | fail err => simp [Reply.terminal]
  | ok res =>
    cases h : res.Status with
    | none => simp [Reply.terminal, h]
    | some status => simp [Reply.terminal, h]

theorem addFetches_zero (c : Calls) (input : GetQueryResultsInput) : addFetches c input 0 = c := by
  simp [addFetches]

theorem addFetches_succ (c : Calls) (input : GetQueryResultsInput) (n : Nat) :
    addFetches { c with fetches := c.fetches ++ [input] } input n = addFetches c input (n + 1) := by
  simp [addFetches, List.replicate_succ]

theorem addFetches_length (c : Calls) (input : GetQueryResultsInput) (n : Nat) :
    (addFetches c input n).fetches.length = c.fetches.length + n := by
  simp [addFetches]

/-- One turn of the loop on a reply that is still running, within the budget. -/
theorem pollLoop_running (logsClient : LogsClient) (rp : Json) (ticks a : Nat) (c : Calls)
    (hrun : (logsClient.GetQueryResults c.fetches.length (fetchInput rp)).running = true)
    (ha : a < maxAttempts) :
    pollLoop logsClient rp (ticks + 1) a c =
      pollLoop logsClient rp ticks (a + 1) (addFetches c (fetchInput rp) 1) := by
  obtain ⟨res, status, hres, hst, hnt⟩ := (running_iff _).1 hrun
  have hres1 : logsClient.GetQueryResults c.fetches.length
      { QueryId := MustString (Json.Get rp "queryId") "" } = .ok res := hres
  have hna : ¬ a ≥ maxAttempts := Nat.not_le.2 ha
  simp [pollLoop, executeGetQueryResults, hres1, hst, hnt, hna, addFetches, fetchInput]

/-- One turn of the loop on a reply that is still running, budget used up. -/
theorem pollLoop_budget (logsClient : LogsClient) (rp : Json) (ticks a : Nat) (c : Calls)
    (res : GetQueryResultsOutput)
    (hres : logsClient.GetQueryResults c.fetches.length (fetchInput rp) = .ok res)
    (hrun : (Reply.ok res).running = true) (ha : maxAttempts ≤ a) :
    pollLoop logsClient rp (ticks + 1) a c =
      (.ret (some res) (some errMaxAttempts), addFetches c (fetchInput rp) 1) := by
  obtain ⟨res1, status, hres1, hst, hnt⟩ := (running_iff _).1 hrun
  cases hres1
  have hres2 : logsClient.GetQueryResults c.fetches.length
      { QueryId := MustString (Json.Get rp "queryId") "" } = .ok res := hres
  have hna : a ≥ maxAttempts := ha
  simp [pollLoop, executeGetQueryResults, hres2, hst, hnt, hna, addFetches, fetchInput]

/-- One turn of the loop on a terminal reply. -/
theorem pollLoop_terminal (logsClient : LogsClient) (rp : Json) (ticks a : Nat) (c : Calls)
    (res : GetQueryResultsOutput)
    (hres : logsClient.GetQueryResults c.fetches.length (fetchInput rp) = .ok res)
    (hterm : (Reply.ok res).terminal = true) :
    pollLoop logsClient rp (ticks + 1) a c =
      (.ret (some res) none, addFetches c (fetchInput rp) 1) := by
  obtain ⟨res1, status, hres1, hst, ht⟩ := (terminal_iff _).1 hterm
  cases hres1
  have hres2 : logsClient.GetQueryResults c.fetches.length
      { QueryId := MustString (Json.Get rp "queryId") "" } = .ok res := hres
  simp [pollLoop, executeGetQueryResults, hres2, hst, ht, addFetches, fetchInput]

/-- One turn of the loop on a transport error. -/
theorem pollLoop_fail (logsClient : LogsClient) (rp : Json) (ticks a : Nat) (c : Calls)
    (err : Error)
    (hres : logsClient.GetQueryResults c.fetches.length (fetchInput rp) = .fail err) :
    pollLoop logsClient rp (ticks + 1) a c =
      (.ret none (some err), addFetches c (fetchInput rp) 1) := by
  have hres2 : logsClient.GetQueryResults c.fetches.length
      { QueryId := MustString (Json.Get rp "queryId") "" } = .fail err := hres
  simp [pollLoop, executeGetQueryResults, hres2, addFetches, fetchInput]

/-- The loop runs through `n` running replies as long as the budget allows. -/
theorem pollLoop_through_running (logsClient : LogsClient) (rp : Json) :
    ∀ (n ticks a : Nat) (c : Calls),
      (∀ i, i < n →
        (logsClient.GetQueryResults (c.fetches.length + i) (fetchInput rp)).running = true) →
      a + n ≤ maxAttempts →
      pollLoop logsClient rp (n + ticks) a c =
        pollLoop logsClient rp ticks (a + n) (addFetches c (fetchInput rp) n) := by
  intro n
  induction n with
  | zero => intro ticks a c _ _; simp [addFetches_zero]
  | succ n ih =>
    intro ticks a c hrun hle
    have h0 : (logsClient.GetQueryResults c.fetches.length (fetchInput rp)).running = true := by
      simpa using hrun 0 (Nat.succ_pos n)
    have ha : a < maxAttempts := by omega
    have hshift : n + 1 + ticks = (n + ticks) + 1 := by omega
    rw [hshift, pollLoop_running logsClient rp (n + ticks) a c h0 ha]
    have hrun1 : ∀ i, i < n → (logsClient.GetQueryResults
        ((addFetches c (fetchInput rp) 1).fetches.length + i) (fetchInput rp)).running = true := by
      intro i hi
      have := hrun (i + 1) (by omega)
      rw [addFetches_length]
      have he : c.fetches.length + 1 + i = c.fetches.length + (i + 1) := by omega
      rw [he]; exact this
    rw [ih ticks (a + 1) (addFetches c (fetchInput rp) 1) hrun1 (by omega)]
    have hc : addFetches (addFetches c (fetchInput rp) 1) (fetchInput rp) n =
        addFetches c (fetchInput rp) (n + 1) := by
      simp [addFetches, List.replicate_succ]
    rw [hc]
    have ha2 : a + 1 + n = a + (n + 1) := by omega
    rw [ha2]

theorem executeStartQuery_fetches (parseTime : String → Reply Int) (logsClient : LogsClient)
    (parameters : Json) (timeRange : TimeRange) (c : Calls) :
    (executeStartQuery parseTime logsClient parameters timeRange c).2.fetches = c.fetches := by
  unfold executeStartQuery
  split
  · rfl
  · split
    · rfl
    · split <;> rfl

/-- After a successful start, `alertQuery` is the polling loop at attempt 1. -/
theorem alertQuery_polls (parseTime : String → Reply Int) (logsClient : LogsClient)
    (qc : TsdbQuery) (ticks : Nat) (c c1 : Calls) (q : Query) (rest : List Query)
    (out : StartQueryOutput) (qid : String)
    (hq : qc.Queries = q :: rest)
    (hstart : executeStartQuery parseTime logsClient q.Model qc.TimeRange c = (.ok out, c1))
    (hid : out.QueryId = some qid) :
    alertQuery parseTime logsClient qc ticks c =
      pollLoop logsClient (requestParams q.Model qid) ticks 1 c1 := by
  simp [alertQuery, hq, hstart, hid]

/-- The loop stops at the first terminal reply when it comes within the budget. -/
theorem pollLoop_first_terminal (logsClient : LogsClient) (rp : Json) (c : Calls)
    (k ticks : Nat) (res : GetQueryResultsOutput)
    (hk1 : 1 ≤ k) (hk8 : k ≤ maxAttempts) (hticks : k ≤ ticks)
    (hbefore : ∀ j, 1 ≤ j → j < k → (attemptReply logsClient rp c j).running = true)
    (hat : attemptReply logsClient rp c k = .ok res)
    (hterm : (Reply.ok res).terminal = true) :
    pollLoop logsClient rp ticks 1 c = (.ret (some res) none, addFetches c (fetchInput rp) k) := by
  obtain ⟨n, rfl⟩ : ∃ n, k = n + 1 := ⟨k - 1, by omega⟩
  obtain ⟨t, rfl⟩ : ∃ t, ticks = n + (t + 1) := ⟨ticks - n - 1, by omega⟩
  have hpre : ∀ i, i < n →
      (logsClient.GetQueryResults (c.fetches.length + i) (fetchInput rp)).running = true := by
    intro i hi
    have := hbefore (i + 1) (by omega) (by omega)
    simpa [attemptReply] using this
  rw [pollLoop_through_running logsClient rp n (t + 1) 1 c hpre (by omega)]
  have hat1 : logsClient.GetQueryResults (addFetches c (fetchInput rp) n).fetches.length
      (fetchInput rp) = .ok res := by
    rw [addFetches_length]; simpa [attemptReply] using hat
  rw [pollLoop_terminal logsClient rp t (1 + n) _ res hat1 hterm]
  simp [addFetches, List.replicate_succ', List.append_assoc]

/-- The loop stops at the first transport error when it comes within the budget. -/
theorem pollLoop_first_fail (logsClient : LogsClient) (rp : Json) (c : Calls)
    (k ticks : Nat) (err : Error)
    (hk1 : 1 ≤ k) (hk8 : k ≤ maxAttempts) (hticks : k ≤ ticks)
    (hbefore : ∀ j, 1 ≤ j → j < k → (attemptReply logsClient rp c j).running = true)
    (hat : attemptReply logsClient rp c k = .fail err) :
    pollLoop logsClient rp ticks 1 c = (.ret none (some err), addFetches c (fetchInput rp) k) := by
  obtain ⟨n, rfl⟩ : ∃ n, k = n + 1 := ⟨k - 1, by omega⟩
  obtain ⟨t, rfl⟩ : ∃ t, ticks = n + (t + 1) := ⟨ticks - n - 1, by omega⟩
  have hpre : ∀ i, i < n →
      (logsClient.GetQueryResults (c.fetches.length + i) (fetchInput rp)).running = true := by
    intro i hi
    have := hbefore (i + 1) (by omega) (by omega)
    simpa [attemptReply] using this
  rw [pollLoop_through_running logsClient rp n (t + 1) 1 c hpre (by omega)]
  have hat1 : logsClient.GetQueryResults (addFetches c (fetchInput rp) n).fetches.length
      (fetchInput rp) = .fail err := by
    rw [addFetches_length]; simpa [attemptReply] using hat
  rw [pollLoop_fail logsClient rp t (1 + n) _ err hat1]
  simp [addFetches, List.replicate_succ', List.append_assoc]

/-- Eight running replies use the budget up: the eighth payload comes back with
the error. -/
theorem pollLoop_exhausted (logsClient : LogsClient) (rp : Json) (c : Calls)
    (ticks : Nat) (hticks : maxAttempts ≤ ticks)
    (hrun : ∀ j, 1 ≤ j → j ≤ maxAttempts → (attemptReply logsClient rp c j).running = true) :
    ∃ res, attemptReply logsClient rp c maxAttempts = .ok res ∧
      pollLoop logsClient rp ticks 1 c =
        (.ret (some res) (some errMaxAttempts), addFetches c (fetchInput rp) maxAttempts) := by
  obtain ⟨t, rfl⟩ : ∃ t, ticks = 7 + (t + 1) := ⟨ticks - 8, by simp [maxAttempts] at hticks; omega⟩
  have hpre : ∀ i, i < 7 →
      (logsClient.GetQueryResults (c.fetches.length + i) (fetchInput rp)).running = true := by
    intro i hi
    have := hrun (i + 1) (by omega) (by simp [maxAttempts]; omega)
    simpa [attemptReply] using this
  have h8 := hrun maxAttempts (by simp [maxAttempts]) (le_refl _)
  obtain ⟨res, status, hres, hst, hnt⟩ := (running_iff _).1 h8
  refine ⟨res, hres, ?_⟩
  rw [pollLoop_through_running logsClient rp 7 (t + 1) 1 c hpre (by simp [maxAttempts])]
  have hat1 : logsClient.GetQueryResults (addFetches c (fetchInput rp) 7).fetches.length
      (fetchInput rp) = .ok res := by
    rw [addFetches_length]; simpa [attemptReply, maxAttempts] using hres
  have hr : (Reply.ok res).running = true := by rw [← hres]; exact h8
  rw [pollLoop_budget logsClient rp t (1 + 7) _ res hat1 hr (by simp [maxAttempts])]
  simp [addFetches, maxAttempts, List.replicate_succ', List.append_assoc]

theorem fetchInput_requestParams (queryParams : Json) (queryId : String) :
    fetchInput (requestParams queryParams queryId) = { QueryId := queryId } := by
  simp [fetchInput, requestParams, Json.Get, List.lookup, MustString]

/-! ## The poller: the claims -/

/-- C1: in a run of `alertQuery` whose start call succeeds and whose fetch calls
return no transport error, if `k` is the first attempt with a terminal status
then exactly `min k 8` fetch calls are made; and if the first 8 attempts are all
non-terminal, exactly 8 fetch calls are made and the eighth payload is returned
together with a non-nil error. -/
theorem alertQuery_fetch_count (parseTime : String → Reply Int) (logsClient : LogsClient)
    (qc : TsdbQuery) (ticks : Nat) (c c1 : Calls) (q : Query) (rest : List Query)
    (out : StartQueryOutput) (qid : String)
    (hq : qc.Queries = q :: rest)
    (hstart : executeStartQuery parseTime logsClient q.Model qc.TimeRange c = (.ok out, c1))
    (hid : out.QueryId = some qid)
    (hticks : 8 ≤ ticks) :
    (∀ k, 1 ≤ k →
      (∀ j, 1 ≤ j → j < k →
        (attemptReply logsClient (requestParams q.Model qid) c1 j).running = true) →
      (attemptReply logsClient (requestParams q.Model qid) c1 k).terminal = true →
      (alertQuery parseTime logsClient qc ticks c).2.fetches.length =
        c.fetches.length + min k 8) ∧
    ((∀ j, 1 ≤ j → j ≤ 8 →
        (attemptReply logsClient (requestParams q.Model qid) c1 j).running = true) →
      (alertQuery parseTime logsClient qc ticks c).2.fetches.length = c.fetches.length + 8 ∧
      ∃ res err, attemptReply logsClient (requestParams q.Model qid) c1 8 = .ok res ∧
        (alertQuery parseTime logsClient qc ticks c).1 = .ret (some res) (some err)) := by
  have hpoll := alertQuery_polls parseTime logsClient qc ticks c c1 q rest out qid hq hstart hid
  have hc1 : c1.fetches = c.fetches := by
    have := executeStartQuery_fetches parseTime logsClient q.Model qc.TimeRange c
    rw [hstart] at this; exact this
  have hexh : (∀ j, 1 ≤ j → j ≤ 8 →
        (attemptReply logsClient (requestParams q.Model qid) c1 j).running = true) →
      (alertQuery parseTime logsClient qc ticks c).2.fetches.length = c.fetches.length + 8 ∧
      ∃ res err, attemptReply logsClient (requestParams q.Model qid) c1 8 = .ok res ∧
        (alertQuery parseTime logsClient qc ticks c).1 = .ret (some res) (some err) := by
    intro hrun
    obtain ⟨res, hres, hloop⟩ :=
      pollLoop_exhausted logsClient (requestParams q.Model qid) c1 ticks hticks hrun
    rw [hpoll, hloop]
    refine ⟨?_, res, errMaxAttempts, hres, rfl⟩
    simp [addFetches_length, hc1, maxAttempts]
  refine ⟨?_, hexh⟩
  intro k hk1 hbefore hterm
  by_cases hk8 : k ≤ 8
  · obtain ⟨res, status, hres, hst, ht⟩ := (terminal_iff _).1 hterm
    have hterm1 : (Reply.ok res).terminal = true := by rw [← hres]; exact hterm
    rw [hpoll, pollLoop_first_terminal logsClient (requestParams q.Model qid) c1 k ticks res
      hk1 hk8 (by omega) hbefore hres hterm1]
    simp [addFetches_length, hc1, Nat.min_eq_left hk8]
  · have h8 := (hexh (fun j h1 h2 => hbefore j h1 (by omega))).1
    rw [h8, Nat.min_eq_right (by omega)]

/-- C2: if the status fetched at attempt `k`, `1 ≤ k ≤ 8`, is one of `Complete`,
`Cancelled`, `Failed`, `Timeout` and every earlier attempt fetched a non-terminal
status, `alertQuery` returns at attempt `k` the payload of attempt `k` with a nil
error. -/
theorem alertQuery_returns_terminal (parseTime : String → Reply Int) (logsClient : LogsClient)
    (qc : TsdbQuery) (ticks : Nat) (c c1 : Calls) (q : Query) (rest : List Query)
    (out : StartQueryOutput) (qid : String)
    (hq : qc.Queries = q :: rest)
    (hstart : executeStartQuery parseTime logsClient q.Model qc.TimeRange c = (.ok out, c1))
    (hid : out.QueryId = some qid)
    (k : Nat) (hk1 : 1 ≤ k) (hk8 : k ≤ 8) (hticks : k ≤ ticks)
    (hbefore : ∀ j, 1 ≤ j → j < k →
      (attemptReply logsClient (requestParams q.Model qid) c1 j).running = true)
    (res : GetQueryResultsOutput) (status : String)
    (hat : attemptReply logsClient (requestParams q.Model qid) c1 k = .ok res)
    (hst : res.Status = some status)
    (hterm : status = "Complete" ∨ status = "Cancelled" ∨ status = "Failed" ∨
      status = "Timeout") :
    alertQuery parseTime logsClient qc ticks c =
      (.ret (some res) none, addFetches c1 { QueryId := qid } k) := by
  have hterm1 : (Reply.ok res).terminal = true :=
    (terminal_iff _).2 ⟨res, status, rfl, hst, (isTerminated_iff status).2 hterm⟩
  rw [alertQuery_polls parseTime logsClient qc ticks c c1 q rest out qid hq hstart hid,
    pollLoop_first_terminal logsClient (requestParams q.Model qid) c1 k ticks res
      hk1 hk8 hticks hbefore hat hterm1, fetchInput_requestParams]

/-- C3: if the fetch call of attempt `k` returns a transport error and every
earlier attempt fetched a non-terminal status within the budget, `alertQuery`
returns that error with a nil payload, and attempt `k` is its last fetch call. -/
theorem alertQuery_transport_error (parseTime : String → Reply Int) (logsClient : LogsClient)
    (qc : TsdbQuery) (ticks : Nat) (c c1 : Calls) (q : Query) (rest : List Query)
    (out : StartQueryOutput) (qid : String)
    (hq : qc.Queries = q :: rest)
    (hstart : executeStartQuery parseTime logsClient q.Model qc.TimeRange c = (.ok out, c1))
    (hid : out.QueryId = some qid)
    (k : Nat) (hk1 : 1 ≤ k) (hk8 : k ≤ 8) (hticks : k ≤ ticks)
    (hbefore : ∀ j, 1 ≤ j → j < k →
      (attemptReply logsClient (requestParams q.Model qid) c1 j).running = true)
    (err : Error)
    (hat : attemptReply logsClient (requestParams q.Model qid) c1 k = .fail err) :
    alertQuery parseTime logsClient qc ticks c =
      (.ret none (some err), addFetches c1 { QueryId := qid } k) := by
  rw [alertQuery_polls parseTime logsClient qc ticks c c1 q rest out qid hq hstart hid,
    pollLoop_first_fail logsClient (requestParams q.Model qid) c1 k ticks err
      hk1 hk8 hticks hbefore hat, fetchInput_requestParams]

/-- Instances of C1: a query complete at the third attempt is fetched three times,
a query that never completes eight times. -/
theorem alertQuery_fetch_count_witness :
    (alertQuery sampleParse (sampleClient scriptCompleteThird) sampleContext 8 noCalls).2.fetches.length
        = noCalls.fetches.length + min 3 8 ∧
      (alertQuery sampleParse (sampleClient scriptNeverDone) sampleContext 8 noCalls).2.fetches.length
        = noCalls.fetches.length + 8 :=
  ⟨(alertQuery_fetch_count sampleParse (sampleClient scriptCompleteThird) sampleContext 8 noCalls
      _ _ _ _ "query-1" rfl rfl rfl (by decide)).1 3 (by decide)
      (by intro j h1 h2; interval_cases j <;> rfl) rfl,
   ((alertQuery_fetch_count sampleParse (sampleClient scriptNeverDone) sampleContext 8 noCalls
      _ _ _ _ "query-1" rfl rfl rfl (by decide)).2 (fun _ _ _ => rfl)).1⟩

/-- Instance of C2: `Complete` at the third attempt. -/
theorem alertQuery_returns_terminal_witness :
    alertQuery sampleParse (sampleClient scriptCompleteThird) sampleContext 8 noCalls =
      (.ret (some (samplePayload "Complete")) none,
        addFetches
          { starts := [{ Region := "default", QueryString := "", StartTime := 1584700643000,
                         EndTime := 1584873443000 }]
            fetches := [], groups := [] }
          { QueryId := "query-1" } 3) :=
  alertQuery_returns_terminal sampleParse (sampleClient scriptCompleteThird) sampleContext 8
    noCalls _ _ _ _ "query-1" rfl rfl rfl 3 (by decide) (by decide) (by decide)
    (by intro j h1 h2; interval_cases j <;> rfl) _ "Complete" rfl rfl (Or.inl rfl)

/-- Instance of C3: a transport error at the second attempt. -/
theorem alertQuery_transport_error_witness :
    alertQuery sampleParse (sampleClient scriptFailSecond) sampleContext 8 noCalls =
      (.ret none (some "throttled"),
        addFetches
          { starts := [{ Region := "default", QueryString := "", StartTime := 1584700643000,
                         EndTime := 1584873443000 }]
            fetches := [], groups := [] }
          { QueryId := "query-1" } 2) :=
  alertQuery_transport_error sampleParse (sampleClient scriptFailSecond) sampleContext 8
    noCalls _ _ _ _ "query-1" rfl rfl rfl 2 (by decide) (by decide) (by decide)
    (by intro j h1 h2; interval_cases j; rfl) "throttled" rfl

/-! ## The alert path: auxiliary facts -/

theorem Json.Get_Set_ne (j : Json) (key other : String) (val : JsonValue) (h : other ≠ key) :
    (j.Set key val).Get other = j.Get other := by
  have hfilter : ∀ l : Json, List.lookup other (l.filter (fun kv => kv.1 ≠ key)) =
      List.lookup other l := by
    intro l
    induction l with
    | nil => rfl
    | cons kv l ih =>
      obtain ⟨k, v⟩ := kv
      by_cases hk : k = key
      · subst hk
        have hne : (other == k) = false := by simpa using h
        simp [List.filter, List.lookup, hne]
        simpa using ih
      · by_cases ho : other = k
        · subst ho
          simp [List.filter, List.lookup, hk]
        · have hne : (other == k) = false := by simpa using ho
          simp [List.filter, List.lookup, hk, hne]
          simpa using ih
  have hne : (other == key) = false := by simpa using h
  simp only [Json.Set, Json.Get, List.lookup, hne]
  exact hfilter j

/-- The grouping fields survive the preparation of the parameters. -/
theorem statsGroups_prepared (datasource : DataSource) (model : Json) (queryId : String) :
    ((regionParams datasource (alertParams model)).Set "queryId" (.atom (.str queryId))).Get
        "statsGroups" = model.Get "statsGroups" := by
  have h1 : (alertParams model).Get "statsGroups" = model.Get "statsGroups" := by
    simp only [alertParams]
    rw [Json.Get_Set_ne _ _ _ _ (by decide), Json.Get_Set_ne _ _ _ _ (by decide)]
  rw [Json.Get_Set_ne _ _ _ _ (by decide)]
  unfold regionParams
  split
  · rw [Json.Get_Set_ne _ _ _ _ (by decide), h1]
  · exact h1

/-- What `executeLogAlertQuery` does with an error of `alertQuery`. -/
theorem executeLogAlertQuery_of_error (E : Collaborators) (datasource : DataSource)
    (qc : TsdbQuery) (ticks : Nat) (c c1 c2 : Calls) (q : Query) (rest : List Query)
    (logsClient : LogsClient) (out : StartQueryOutput) (qid : String)
    (payload : Option GetQueryResultsOutput) (err : Error)
    (hq : qc.Queries = q :: rest)
    (hclient : E.logsClient
      (retrieveDsInfo datasource (alertRegion datasource (alertParams q.Model))) = .ok logsClient)
    (hstart : executeStartQuery E.parseTime logsClient
      (regionParams datasource (alertParams q.Model)) qc.TimeRange c = (.ok out, c1))
    (hid : out.QueryId = some qid)
    (halert : alertQuery E.parseTime logsClient (alertContext datasource qc q rest qid) ticks c1 =
      (.ret payload (some err), c2)) :
    executeLogAlertQuery E datasource qc ticks c = (.ret none (some err), c2) := by
  simp only [alertContext, alertModel] at halert
  simp [executeLogAlertQuery, hq, hclient, hstart, hid, halert]

/-- What `executeLogAlertQuery` does with a payload of `alertQuery` that the
transformer accepts. -/
theorem executeLogAlertQuery_of_frame (E : Collaborators) (datasource : DataSource)
    (qc : TsdbQuery) (ticks : Nat) (c c1 c2 : Calls) (q : Query) (rest : List Query)
    (logsClient : LogsClient) (out : StartQueryOutput) (qid : String)
    (payload : Option GetQueryResultsOutput) (frame : Frame)
    (hq : qc.Queries = q :: rest)
    (hclient : E.logsClient
      (retrieveDsInfo datasource (alertRegion datasource (alertParams q.Model))) = .ok logsClient)
    (hstart : executeStartQuery E.parseTime logsClient
      (regionParams datasource (alertParams q.Model)) qc.TimeRange c = (.ok out, c1))
    (hid : out.QueryId = some qid)
    (halert : alertQuery E.parseTime logsClient (alertContext datasource qc q rest qid) ticks c1 =
      (.ret payload none, c2))
    (hframe : E.logsResultsToDataframes payload = .ok frame) :
    executeLogAlertQuery E datasource qc ticks c =
      if (MustStringArray (q.Model.Get "statsGroups")).length > 0 ∧ frame.Fields.length > 0 then
        match E.groupResults frame (MustStringArray (q.Model.Get "statsGroups")) with
        | .fail err =>
          (.ret none (some err),
            { c2 with groups := c2.groups ++ [(frame, MustStringArray (q.Model.Get "statsGroups"))] })
        | .ok groupedFrames =>
          (.ret (some (alertResponse groupedFrames)) none,
            { c2 with groups := c2.groups ++ [(frame, MustStringArray (q.Model.Get "statsGroups"))] })
      else (.ret (some (alertResponse [frame])) none, c2) := by
  simp only [alertContext, alertModel] at halert
  have hg := statsGroups_prepared datasource q.Model qid
  simp only [executeLogAlertQuery, hq, hclient, hstart, hid, halert, hframe, hg, alertResponse]

/-! ## The alert path: the claims -/

/-- C4, as stated, fails: on a query that never leaves `Running` the alert path
makes its 8 fetch calls and then returns the error with a nil response, so no
response reaches the caller alongside the error. -/
theorem alert_path_drops_timeout_payload :
    (executeLogAlertQuery (sampleCollaborators scriptNeverDone) sampleDataSource sampleContext 8
        noCalls).2.fetches.length = 8 ∧
      ¬ ∃ resp err,
        (executeLogAlertQuery (sampleCollaborators scriptNeverDone) sampleDataSource sampleContext 8
          noCalls).1 = Outcome.ret (some resp) err := by
  refine ⟨by decide, ?_⟩
  rintro ⟨resp, err, h⟩
  have hval : (executeLogAlertQuery (sampleCollaborators scriptNeverDone) sampleDataSource
      sampleContext 8 noCalls).1 = Outcome.ret none (some errMaxAttempts) := by decide
  rw [hval] at h
  cases h

/-- C4, amended: when the budget of 8 attempts is used up without a terminal
status, `alertQuery` returns the eighth payload together with the error, and
`executeLogAlertQuery` returns that error with a nil response. -/
theorem executeLogAlertQuery_timeout (E : Collaborators) (datasource : DataSource)
    (qc : TsdbQuery) (ticks : Nat) (c c1 c2 : Calls) (q : Query) (rest : List Query)
    (logsClient : LogsClient) (out1 out2 : StartQueryOutput) (qid1 qid2 : String)
    (hq : qc.Queries = q :: rest)
    (hclient : E.logsClient
      (retrieveDsInfo datasource (alertRegion datasource (alertParams q.Model))) = .ok logsClient)
    (hstart1 : executeStartQuery E.parseTime logsClient
      (regionParams datasource (alertParams q.Model)) qc.TimeRange c = (.ok out1, c1))
    (hid1 : out1.QueryId = some qid1)
    (hstart2 : executeStartQuery E.parseTime logsClient (alertModel datasource q.Model qid1)
      qc.TimeRange c1 = (.ok out2, c2))
    (hid2 : out2.QueryId = some qid2)
    (hticks : 8 ≤ ticks)
    (hrun : ∀ j, 1 ≤ j → j ≤ 8 →
      (attemptReply logsClient (requestParams (alertModel datasource q.Model qid1) qid2) c2
        j).running = true) :
    ∃ res,
      attemptReply logsClient (requestParams (alertModel datasource q.Model qid1) qid2) c2 8 =
        .ok res ∧
      alertQuery E.parseTime logsClient (alertContext datasource qc q rest qid1) ticks c1 =
        (.ret (some res) (some errMaxAttempts), addFetches c2 { QueryId := qid2 } 8) ∧
      executeLogAlertQuery E datasource qc ticks c =
        (.ret none (some errMaxAttempts), addFetches c2 { QueryId := qid2 } 8) := by
  obtain ⟨res, hres, hloop⟩ := pollLoop_exhausted logsClient
    (requestParams (alertModel datasource q.Model qid1) qid2) c2 ticks hticks hrun
  have halert : alertQuery E.parseTime logsClient (alertContext datasource qc q rest qid1) ticks
      c1 = (.ret (some res) (some errMaxAttempts), addFetches c2 { QueryId := qid2 } 8) := by
    rw [alertQuery_polls E.parseTime logsClient (alertContext datasource qc q rest qid1) ticks c1
      c2 { q with Model := alertModel datasource q.Model qid1 } rest out2 qid2 rfl hstart2 hid2,
      hloop, fetchInput_requestParams]
    rfl
  exact ⟨res, hres, halert,
    executeLogAlertQuery_of_error E datasource qc ticks c c1 _ q rest logsClient out1 qid1
      (some res) errMaxAttempts hq hclient hstart1 hid1 halert⟩

/-- Instance of the amended C4: a query that never leaves `Running`. -/
theorem executeLogAlertQuery_timeout_witness :
    ∃ res,
      attemptReply (sampleClient scriptNeverDone)
        (requestParams (alertModel sampleDataSource sampleQuery.Model "query-1") "query-2")
        { starts := [sampleStart, sampleStart], fetches := [], groups := [] } 8 = .ok res ∧
      alertQuery sampleParse (sampleClient scriptNeverDone)
        (alertContext sampleDataSource sampleContext sampleQuery [] "query-1") 8
        { starts := [sampleStart], fetches := [], groups := [] } =
        (.ret (some res) (some errMaxAttempts),
          addFetches { starts := [sampleStart, sampleStart], fetches := [], groups := [] }
            { QueryId := "query-2" } 8) ∧
      executeLogAlertQuery (sampleCollaborators scriptNeverDone) sampleDataSource sampleContext 8
        noCalls =
        (.ret none (some errMaxAttempts),
          addFetches { starts := [sampleStart, sampleStart], fetches := [], groups := [] }
            { QueryId := "query-2" } 8) :=
  executeLogAlertQuery_timeout (sampleCollaborators scriptNeverDone) sampleDataSource
    sampleContext 8 noCalls { starts := [sampleStart], fetches := [], groups := [] }
    { starts := [sampleStart, sampleStart], fetches := [], groups := [] } sampleQuery []
    (sampleClient scriptNeverDone)
    { QueryId := some "query-1" } { QueryId := some "query-2" } "query-1" "query-2"
    rfl rfl rfl rfl rfl rfl (by decide) (fun _ _ _ => rfl)

/-- C5, evaluated on the code: for one alert query the remote start operation is
called twice; the first call hands out `query-1`, the second `query-2`, and
every fetch call polls `query-2`. -/
theorem executeLogAlertQuery_starts_twice :
    (sampleClient scriptCompleteThird).StartQuery 0 sampleStart = .ok { QueryId := some "query-1" } ∧
      (sampleClient scriptCompleteThird).StartQuery 1 sampleStart =
        .ok { QueryId := some "query-2" } ∧
      (executeLogAlertQuery (sampleCollaborators scriptCompleteThird) sampleDataSource
        sampleContext 8 noCalls).2 =
        { starts := [sampleStart, sampleStart]
          fetches := [{ QueryId := "query-2" }, { QueryId := "query-2" }, { QueryId := "query-2" }]
          groups := [] } := by
  decide

/-- C8: once the transformer has produced the table `frame`, the grouper is called,
on `frame` and the declared grouping fields, exactly when there is a grouping
field and `frame` has a column; the response then holds the grouper's tables, or
the grouper's error comes back with a nil response; otherwise the grouper is not
called and the response holds the single table `frame`. -/
theorem executeLogAlertQuery_grouping (E : Collaborators) (datasource : DataSource)
    (qc : TsdbQuery) (ticks : Nat) (c c1 c2 : Calls) (q : Query) (rest : List Query)
    (logsClient : LogsClient) (out : StartQueryOutput) (qid : String)
    (payload : Option GetQueryResultsOutput) (frame : Frame)
    (hq : qc.Queries = q :: rest)
    (hclient : E.logsClient
      (retrieveDsInfo datasource (alertRegion datasource (alertParams q.Model))) = .ok logsClient)
    (hstart : executeStartQuery E.parseTime logsClient
      (regionParams datasource (alertParams q.Model)) qc.TimeRange c = (.ok out, c1))
    (hid : out.QueryId = some qid)
    (halert : alertQuery E.parseTime logsClient (alertContext datasource qc q rest qid) ticks c1 =
      (.ret payload none, c2))
    (hframe : E.logsResultsToDataframes payload = .ok frame) :
    (MustStringArray (q.Model.Get "statsGroups") ≠ [] ∧ frame.Fields ≠ [] →
      (executeLogAlertQuery E datasource qc ticks c).2.groups =
        c2.groups ++ [(frame, MustStringArray (q.Model.Get "statsGroups"))] ∧
      (executeLogAlertQuery E datasource qc ticks c).1 =
        match E.groupResults frame (MustStringArray (q.Model.Get "statsGroups")) with
        | .ok groupedFrames =>
          .ret (some { Results := [("A", { RefId := "A", Dataframes := groupedFrames })] }) none
        | .fail err => .ret none (some err)) ∧
    (¬ (MustStringArray (q.Model.Get "statsGroups") ≠ [] ∧ frame.Fields ≠ []) →
      (executeLogAlertQuery E datasource qc ticks c).2.groups = c2.groups ∧
      (executeLogAlertQuery E datasource qc ticks c).1 =
        .ret (some { Results := [("A", { RefId := "A", Dataframes := [frame] })] }) none) := by
  have hrun := executeLogAlertQuery_of_frame E datasource qc ticks c c1 c2 q rest logsClient out
    qid payload frame hq hclient hstart hid halert hframe
  have hcond : ((MustStringArray (q.Model.Get "statsGroups")).length > 0 ∧
      frame.Fields.length > 0) ↔
      (MustStringArray (q.Model.Get "statsGroups") ≠ [] ∧ frame.Fields ≠ []) := by
    simp [List.length_pos]
  constructor
  · intro h
    rw [hrun, if_pos (hcond.2 h)]
    cases E.groupResults frame (MustStringArray (q.Model.Get "statsGroups")) <;>
      simp [alertResponse]
  · intro h
    rw [hrun, if_neg (fun h1 => h (hcond.1 h1))]
    simp [alertResponse]

/-- Instance of C8: a query grouped by `host` on a table with two columns. -/
theorem executeLogAlertQuery_grouping_witness :
    (executeLogAlertQuery (sampleCollaborators scriptCompleteThird) sampleDataSource
        sampleGroupedContext 8 noCalls).2.groups = [] ++ [(sampleFrame, ["host"])] ∧
      (executeLogAlertQuery (sampleCollaborators scriptCompleteThird) sampleDataSource
        sampleGroupedContext 8 noCalls).1 =
        .ret (some { Results := [("A", { RefId := "A", Dataframes :=
          [{ sampleFrame with Name := "a" }, { sampleFrame with Name := "b" }] })] }) none :=
  (executeLogAlertQuery_grouping (sampleCollaborators scriptCompleteThird) sampleDataSource
    sampleGroupedContext 8 noCalls { starts := [sampleStart], fetches := [], groups := [] }
    { starts := [sampleStart, sampleStart]
      fetches := [{ QueryId := "query-2" }, { QueryId := "query-2" }, { QueryId := "query-2" }]
      groups := [] }
    _ [] (sampleClient scriptCompleteThird) { QueryId := some "query-1" } "query-1"
    (some (samplePayload "Complete")) sampleFrame rfl rfl rfl rfl rfl rfl).1
    ⟨by decide, by decide⟩

/-- C9, evaluated on the code: the alert query of `sampleContext` has reference id
`B`, and the response of the alert path has the single key `A`, whose result has
`RefId` `A`. -/
theorem executeLogAlertQuery_ignores_refId :
    sampleContext.Queries.map (fun q => q.RefId) = ["B"] ∧
      (executeLogAlertQuery (sampleCollaborators scriptCompleteThird) sampleDataSource
        sampleContext 8 noCalls).1 =
        .ret (some { Results := [("A", { RefId := "A", Dataframes := [sampleFrame] })] }) none := by
  decide

/-! ## Session construction: the claims -/

/-- C6: for an auth type other than `credentials`, `keys` and `sdk`,
`newAWSSession` returns no session and an error whose message is the quoted
value followed by the three accepted values, and the log of factory calls is
unchanged: neither the session factory nor the STS credentials factory is
called, whatever the assume-role ARN. -/
theorem newAWSSession_invalid_authType (F : Factories) (quote : String → String)
    (dsInfo : DatasourceInfo) (t : Trace)
    (h1 : dsInfo.AuthType ≠ "credentials") (h2 : dsInfo.AuthType ≠ "keys")
    (h3 : dsInfo.AuthType ≠ "sdk") :
    newAWSSession F quote dsInfo t =
      (.fail (quote dsInfo.AuthType ++
        " is not a valid authentication type - expected \"credentials\", \"keys\" or \"sdk\""),
        t) := by
  simp [newAWSSession, authConfigs, h1, h2, h3, errAuthType]

/-- Instance of C6: the auth type `bogus`, with a role to assume configured. -/
theorem newAWSSession_invalid_authType_witness :
    newAWSSession sampleFactories sampleQuote sampleBogusInfo noTrace =
      (.fail (sampleQuote "bogus" ++
        " is not a valid authentication type - expected \"credentials\", \"keys\" or \"sdk\""),
        noTrace) :=
  newAWSSession_invalid_authType sampleFactories sampleQuote sampleBogusInfo noTrace
    (by decide) (by decide) (by decide)

/-- C7: with a valid auth type and a first session `sess` built from `cfgs`: when
the assume-role ARN is non-empty the STS credentials factory is called once, on
`sess`, the ARN and an option that sets the external id of the role provider
exactly when the configured external id is non-empty, the session factory is
called a second time on the same region configuration plus those credentials,
and what that call returns is returned; when the ARN is empty the session
factory is called once and `sess` is returned. -/
theorem newAWSSession_assume_role (F : Factories) (quote : String → String)
    (dsInfo : DatasourceInfo) (t : Trace) (cfgs : List Config) (sess : Session)
    (hauth :
      (dsInfo.AuthType = "credentials" ∧
        cfgs = [{ Region := some dsInfo.Region, Credentials := none },
                { Region := none, Credentials := some (.shared "" dsInfo.Profile) }]) ∨
      (dsInfo.AuthType = "keys" ∧
        cfgs = [{ Region := some dsInfo.Region, Credentials := none },
                { Region := none,
                  Credentials := some (.static dsInfo.AccessKey dsInfo.SecretKey "") }]) ∨
      (dsInfo.AuthType = "sdk" ∧
        cfgs = [{ Region := some dsInfo.Region, Credentials := none }]))
    (hfirst : F.newSession t.sessions.length cfgs = .ok sess) :
    (dsInfo.AssumeRoleArn ≠ "" →
      newAWSSession F quote dsInfo t =
        (F.newSession (t.sessions.length + 1)
          [{ Region := some dsInfo.Region, Credentials := none },
           { Region := none,
             Credentials := some
              (F.newSTSCredentials sess dsInfo.AssumeRoleArn (assumeRoleOption dsInfo)) }],
         { sessions := t.sessions ++
            [cfgs,
             [{ Region := some dsInfo.Region, Credentials := none },
              { Region := none,
                Credentials := some
                  (F.newSTSCredentials sess dsInfo.AssumeRoleArn (assumeRoleOption dsInfo)) }]]
           sts := t.sts ++
            [{ sess := sess, roleARN := dsInfo.AssumeRoleArn,
               option := assumeRoleOption dsInfo }] }) ∧
      ∀ p : AssumeRoleProvider,
        (dsInfo.ExternalID ≠ "" →
          assumeRoleOption dsInfo p = { p with ExternalID := some dsInfo.ExternalID }) ∧
        (dsInfo.ExternalID = "" → assumeRoleOption dsInfo p = p)) ∧
    (dsInfo.AssumeRoleArn = "" →
      newAWSSession F quote dsInfo t =
        (.ok sess, { sessions := t.sessions ++ [cfgs], sts := t.sts })) := by
  have hopt : ∀ p : AssumeRoleProvider,
      (dsInfo.ExternalID ≠ "" →
        assumeRoleOption dsInfo p = { p with ExternalID := some dsInfo.ExternalID }) ∧
      (dsInfo.ExternalID = "" → assumeRoleOption dsInfo p = p) := by
    intro p
    constructor
    · intro h; simp [assumeRoleOption, h]
    · intro h; simp [assumeRoleOption, h]
  have hcfgs : authConfigs dsInfo = some cfgs := by
    rcases hauth with ⟨ha, rfl⟩ | ⟨ha, rfl⟩ | ⟨ha, rfl⟩ <;> simp [authConfigs, ha]
  refine ⟨fun harn => ⟨?_, hopt⟩, fun harn => ?_⟩
  · simp only [newAWSSession, hcfgs, hfirst, harn, ne_eq, not_false_eq_true, if_true,
      List.length_append, List.length_singleton, List.append_assoc, List.singleton_append]
    cases F.newSession (t.sessions.length + 1) _ <;> rfl
  · simp [newAWSSession, hcfgs, hfirst, harn]

/-- Instance of C7: static keys, a role to assume and an external id. -/
theorem newAWSSession_assume_role_witness :
    newAWSSession sampleFactories sampleQuote sampleRoleInfo noTrace =
      (.ok { id := 1 },
        { sessions :=
            [[{ Region := some "us-east-1", Credentials := none },
              { Region := none, Credentials := some (.static "AKIA" "secret" "") }],
             [{ Region := some "us-east-1", Credentials := none },
              { Region := none,
                Credentials := some (.assumeRole { id := 0 }
                  { RoleARN := "arn:aws:iam::123456789012:role/grafana",
                    ExternalID := some "ext-1" }) }]]
          sts :=
            [{ sess := { id := 0 }, roleARN := "arn:aws:iam::123456789012:role/grafana",
               option := assumeRoleOption sampleRoleInfo }] }) :=
  ((newAWSSession_assume_role sampleFactories sampleQuote sampleRoleInfo noTrace _ { id := 0 }
    (Or.inr (Or.inl ⟨rfl, rfl⟩)) rfl).1 (by decide)).1

/-! ## The dispatch of `Query` -/

theorem lookup_isSome_iff (l : List (String × String)) (key : String) :
    (l.lookup key).isSome = true ↔ ∃ v, (key, v) ∈ l := by
  induction l with
  | nil => simp [List.lookup]
  | cons kv l ih =>
    obtain ⟨k, v⟩ := kv
    by_cases hk : key = k
    · subst hk
      simp [List.lookup]
    · have hne : (key == k) = false := by simpa using hk
      simp [List.lookup, hne, ih, hk]

theorem MustString_eq_iff (v : Option JsonValue) (s : String) (hs : s ≠ "") :
    MustString v "" = s ↔ v = some (.atom (.str s)) := by
  unfold MustString
  split
  · simp
  · rename_i hnot
    constructor
    · intro h; exact absurd h.symm hs
    · intro h; exact absurd h (hnot s)

/-- C10: `Query` runs the alert path exactly when the headers hold the key
`FromAlert` and the `queryMode` of the first query is the string `Logs`; in every
other case it returns, unchanged, what the delegate chosen by the `type` of the
first query returns: the metric lookup for `metricFindQuery`, the annotation
lookup for `annotationQuery`, the log actions for `logAction`, and the time-series
query for every other or missing type. -/
theorem Query_dispatch (E : Collaborators) (dsInfo : DataSource) (qc : TsdbQuery)
    (ticks : Nat) (c : Calls) (q : Query) (rest : List Query)
    (hq : qc.Queries = q :: rest) :
    ((∃ v, ("FromAlert", v) ∈ qc.Headers) ∧
        q.Model.Get "queryMode" = some (.atom (.str "Logs")) →
      CloudWatchExecutor.Query E dsInfo qc ticks c = executeLogAlertQuery E dsInfo qc ticks c) ∧
    (¬ ((∃ v, ("FromAlert", v) ∈ qc.Headers) ∧
        q.Model.Get "queryMode" = some (.atom (.str "Logs"))) →
      (q.Model.Get "type" = some (.atom (.str "metricFindQuery")) →
        CloudWatchExecutor.Query E dsInfo qc ticks c = (E.executeMetricFindQuery dsInfo qc, c)) ∧
      (q.Model.Get "type" = some (.atom (.str "annotationQuery")) →
        CloudWatchExecutor.Query E dsInfo qc ticks c = (E.executeAnnotationQuery dsInfo qc, c)) ∧
      (q.Model.Get "type" = some (.atom (.str "logAction")) →
        CloudWatchExecutor.Query E dsInfo qc ticks c = (E.executeLogActions dsInfo qc, c)) ∧
      (q.Model.Get "type" ≠ some (.atom (.str "metricFindQuery")) →
        q.Model.Get "type" ≠ some (.atom (.str "annotationQuery")) →
        q.Model.Get "type" ≠ some (.atom (.str "logAction")) →
        CloudWatchExecutor.Query E dsInfo qc ticks c = (E.executeTimeSeriesQuery dsInfo qc, c))) := by
  have hmode : MustString (q.Model.Get "queryMode") "" = "Logs" ↔
      q.Model.Get "queryMode" = some (.atom (.str "Logs")) :=
    MustString_eq_iff _ _ (by decide)
  have hhead := lookup_isSome_iff qc.Headers "FromAlert"
  have hm := MustString_eq_iff (q.Model.Get "type") "metricFindQuery" (by decide)
  have ha := MustString_eq_iff (q.Model.Get "type") "annotationQuery" (by decide)
  have hl := MustString_eq_iff (q.Model.Get "type") "logAction" (by decide)
  constructor
  · rintro ⟨h1, h2⟩
    have h1' := hhead.2 h1
    have h2' := hmode.2 h2
    simp [CloudWatchExecutor.Query, hq, h1', h2']
  · intro hnot
    have hcond : ((qc.Headers.lookup "FromAlert").isSome &&
        MustString (q.Model.Get "queryMode") "" == "Logs") = false := by
      cases hb : ((qc.Headers.lookup "FromAlert").isSome &&
        MustString (q.Model.Get "queryMode") "" == "Logs") with
      | false => rfl
      | true =>
        exfalso
        simp only [Bool.and_eq_true, beq_iff_eq] at hb
        exact hnot ⟨hhead.1 hb.1, hmode.1 hb.2⟩
    refine ⟨fun h => ?_, fun h => ?_, fun h => ?_, fun h1 h2 h3 => ?_⟩
    · have := hm.2 h
      simp [CloudWatchExecutor.Query, hq, hcond, this]
    · have := ha.2 h
      simp [CloudWatchExecutor.Query, hq, hcond, this]
    · have := hl.2 h
      simp [CloudWatchExecutor.Query, hq, hcond, this]
    · have n1 : ¬ MustString (q.Model.Get "type") "" = "metricFindQuery" := fun e => h1 (hm.1 e)
      have n2 : ¬ MustString (q.Model.Get "type") "" = "annotationQuery" := fun e => h2 (ha.1 e)
      have n3 : ¬ MustString (q.Model.Get "type") "" = "logAction" := fun e => h3 (hl.1 e)
      simp [CloudWatchExecutor.Query, hq, hcond, n1, n2, n3]

/-- Instances of C10: an alert query, a log action, and a type no case names. -/
theorem Query_dispatch_witness :
    CloudWatchExecutor.Query (sampleCollaborators scriptCompleteThird) sampleDataSource
        sampleContext 8 noCalls =
      executeLogAlertQuery (sampleCollaborators scriptCompleteThird) sampleDataSource
        sampleContext 8 noCalls ∧
    CloudWatchExecutor.Query (sampleCollaborators scriptCompleteThird) sampleDataSource
        (sampleTypedContext "logAction") 8 noCalls =
      (sampleReturn "logAction", noCalls) ∧
    CloudWatchExecutor.Query (sampleCollaborators scriptCompleteThird) sampleDataSource
        (sampleTypedContext "unheard") 8 noCalls =
      (sampleReturn "timeSeries", noCalls) :=
  ⟨(Query_dispatch (sampleCollaborators scriptCompleteThird) sampleDataSource sampleContext 8
      noCalls _ _ rfl).1 ⟨⟨"", by decide⟩, by decide⟩,
   ((Query_dispatch (sampleCollaborators scriptCompleteThird) sampleDataSource
      (sampleTypedContext "logAction") 8 noCalls _ _ rfl).2
        (by rintro ⟨⟨v, hv⟩, _⟩; simp [sampleTypedContext] at hv)).2.2.1 (by decide),
   ((Query_dispatch (sampleCollaborators scriptCompleteThird) sampleDataSource
      (sampleTypedContext "unheard") 8 noCalls _ _ rfl).2
        (by rintro ⟨⟨v, hv⟩, _⟩; simp [sampleTypedContext] at hv)).2.2.2
        (by decide) (by decide) (by decide)⟩

/-! ## Data source settings: the claim -/

/-- C11: the settings `retrieveDsInfo` returns for region `region` have as `Region`
the default region of the data source when `region` is the sentinel `default`
and `region` itself otherwise, and every other field is the same for any two
regions. -/
theorem retrieveDsInfo_region (datasource : DataSource) (region other : String) :
    (region = "default" →
      (retrieveDsInfo datasource region).Region =
        MustString (datasource.JsonData.Get "defaultRegion") "") ∧
    (region ≠ "default" → (retrieveDsInfo datasource region).Region = region) ∧
    (retrieveDsInfo datasource region).Profile = (retrieveDsInfo datasource other).Profile ∧
    (retrieveDsInfo datasource region).AuthType = (retrieveDsInfo datasource other).AuthType ∧
    (retrieveDsInfo datasource region).AssumeRoleArn =
      (retrieveDsInfo datasource other).AssumeRoleArn ∧
    (retrieveDsInfo datasource region).ExternalID = (retrieveDsInfo datasource other).ExternalID ∧
    (retrieveDsInfo datasource region).AccessKey = (retrieveDsInfo datasource other).AccessKey ∧
    (retrieveDsInfo datasource region).SecretKey = (retrieveDsInfo datasource other).SecretKey ∧
    (retrieveDsInfo datasource region).Namespace = (retrieveDsInfo datasource other).Namespace := by
  refine ⟨fun h => ?_, fun h => ?_, rfl, rfl, rfl, rfl, rfl, rfl, rfl⟩
  · simp [retrieveDsInfo, h]
  · simp [retrieveDsInfo, h]

/-- Instances of C11: the sentinel reads the default region `us-east-1` of the
sample data source, `eu-west-1` is kept, and the keys are the same for both. -/
theorem retrieveDsInfo_region_witness :
    (retrieveDsInfo sampleDataSource "default").Region = "us-east-1" ∧
      (retrieveDsInfo sampleDataSource "eu-west-1").Region = "eu-west-1" ∧
      (retrieveDsInfo sampleDataSource "default").AccessKey =
        (retrieveDsInfo sampleDataSource "eu-west-1").AccessKey :=
  ⟨(retrieveDsInfo_region sampleDataSource "default" "eu-west-1").1 rfl,
   (retrieveDsInfo_region sampleDataSource "eu-west-1" "default").2.1 (by decide),
   (retrieveDsInfo_region sampleDataSource "default" "eu-west-1").2.2.2.2.2.2.1⟩

/-! ## The poller: a nil error means a terminal payload -/

/-- With enough ticks left to use the budget up, the loop returns a nil error
only together with a payload whose status is terminal. -/
theorem pollLoop_nil_error (logsClient : LogsClient) (rp : Json) :
    ∀ (ticks a : Nat) (c c1 : Calls) (val : Option GetQueryResultsOutput),
      a ≤ maxAttempts → maxAttempts < ticks + a →
      pollLoop logsClient rp ticks a c = (.ret val none, c1) →
      ∃ res status, val = some res ∧ res.Status = some status ∧
        isTerminated status = true := by
  intro ticks
  induction ticks with
  | zero => intro a c c1 val ha hlt _; omega
  | succ ticks ih =>
    intro a c c1 val ha hlt h
    rw [pollLoop] at h
    split at h
    · cases h
    · rename_i res c2 _
      split at h
      · cases h
      · rename_i status hst
        split at h
        · rename_i hterm
          simp only [Prod.mk.injEq, Outcome.ret.injEq] at h
          exact ⟨res, status, h.1.1.symm, hst, hterm⟩
        · split at h
          · cases h
          · rename_i hna
            exact ih (a + 1) c2 c1 val (by omega) (by omega) h

/-- A run of `alertQuery` over at least 8 ticks returns a nil error only together
with a payload whose status is terminal. -/
theorem alertQuery_nil_error_payload (parseTime : String → Reply Int) (logsClient : LogsClient)
    (qc : TsdbQuery) (ticks : Nat) (c c1 : Calls) (val : Option GetQueryResultsOutput)
    (hticks : 8 ≤ ticks)
    (h : alertQuery parseTime logsClient qc ticks c = (.ret val none, c1)) :
    ∃ res status, val = some res ∧ res.Status = some status ∧ isTerminated status = true := by
  unfold alertQuery at h
  split at h
  · cases h
  · dsimp only at h
    split at h
    · cases h
    · split at h
      · cases h
      · exact pollLoop_nil_error logsClient _ ticks 1 _ c1 val (by simp [maxAttempts])
          (by simp [maxAttempts]; omega) h

/-- C12: in a run of `alertQuery` over a sequence of ticks long enough for the whole
budget, a nil error comes only with a payload that is not nil and whose status
is one of the four terminal values, so the final `return nil, nil` is not
reached; and what `executeLogAlertQuery` returns does not depend on what the
result transformer would answer to a nil payload: it is never handed one. -/
theorem alertQuery_nil_error_terminal (ticks : Nat) (hticks : 8 ≤ ticks) :
    (∀ (parseTime : String → Reply Int) (logsClient : LogsClient) (qc : TsdbQuery)
        (c c1 : Calls) (val : Option GetQueryResultsOutput),
      alertQuery parseTime logsClient qc ticks c = (.ret val none, c1) →
      ∃ res status, val = some res ∧ res.Status = some status ∧
        (status = "Complete" ∨ status = "Cancelled" ∨ status = "Failed" ∨
          status = "Timeout")) ∧
    (∀ (parseTime : String → Reply Int) (logsClient : LogsClient) (qc : TsdbQuery) (c : Calls),
      (alertQuery parseTime logsClient qc ticks c).1 ≠ .ret none none) ∧
    (∀ (E : Collaborators) (datasource : DataSource) (qc : TsdbQuery) (c : Calls)
        (atNil : Reply Frame),
      executeLogAlertQuery (withTransformerAtNil E atNil) datasource qc ticks c =
        executeLogAlertQuery E datasource qc ticks c) := by
  refine ⟨?_, ?_, ?_⟩
  · intro parseTime logsClient qc c c1 val h
    obtain ⟨res, status, hv, hst, ht⟩ :=
      alertQuery_nil_error_payload parseTime logsClient qc ticks c c1 val hticks h
    exact ⟨res, status, hv, hst, (isTerminated_iff status).1 ht⟩
  · intro parseTime logsClient qc c h
    obtain ⟨res, status, hv, _, _⟩ :=
      alertQuery_nil_error_payload parseTime logsClient qc ticks c
        (alertQuery parseTime logsClient qc ticks c).2 none hticks (Prod.ext h rfl)
    cases hv
  · intro E datasource qc c atNil
    unfold executeLogAlertQuery
    cases hq : qc.Queries with
    | nil => rfl
    | cons q rest =>
      simp only [withTransformerAtNil]
      cases hclient : E.logsClient
          (retrieveDsInfo datasource (alertRegion datasource (alertParams q.Model))) with
      | fail err => rfl
      | ok logsClient =>
        simp only []
        cases hstart : executeStartQuery E.parseTime logsClient
            (regionParams datasource (alertParams q.Model)) qc.TimeRange c with
        | mk reply c1 =>
          cases reply with
          | fail err => rfl
          | ok result =>
            simp only []
            cases hid : result.QueryId with
            | none => rfl
            | some queryId =>
              simp only []
              cases halert : alertQuery E.parseTime logsClient
                  { qc with
                    Queries :=
                      { q with
                        Model := (regionParams datasource (alertParams q.Model)).Set "queryId"
                          (.atom (.str queryId)) } :: rest } ticks c1 with
              | mk outcome c2 =>
                cases outcome with
                | panic => rfl
                | ret val err =>
                  cases err with
                  | some e => rfl
                  | none =>
                    obtain ⟨res, status, hv, _, _⟩ :=
                      alertQuery_nil_error_payload _ _ _ ticks c1 c2 val hticks halert
                    subst hv
                    rfl

/-- Instance of C12: over 8 ticks the query complete at the third attempt comes
back with a nil error, and its payload carries the terminal status `Complete`. -/
theorem alertQuery_nil_error_terminal_witness :
    (alertQuery sampleParse (sampleClient scriptCompleteThird) sampleContext 8 noCalls).1 =
        .ret (some (samplePayload "Complete")) none ∧
      ∃ res status, some (samplePayload "Complete") = some res ∧ res.Status = some status ∧
        (status = "Complete" ∨ status = "Cancelled" ∨ status = "Failed" ∨
          status = "Timeout") :=
  ⟨rfl, (alertQuery_nil_error_terminal 8 (by decide)).1 sampleParse
    (sampleClient scriptCompleteThird) sampleContext noCalls _ (some (samplePayload "Complete"))
    rfl⟩

end Cloudwatch
